import Mathlib

/-!
Verification development for the forte-sales-automator repository.

The definitions below are a shallow embedding of the lead lifecycle
automation code: the Supabase edge functions `webhook-lead-ingestion`
(with its embedded `ai-quote-generator`), the follow-up automation
function embedded in `src/pages/EmailTemplates.tsx`, `send-sms` (with its
embedded four-way reply classifier), `reply-detection` (with its embedded
`send-email`), and `quickbooks-conversion`.

Timestamps are modelled as integers (milliseconds), money and confidence
values as rationals, and external HTTP calls (Twilio, Resend, Gemini,
OpenAI, QuickBooks) as explicit oracle parameters describing the remote
response; a thrown JavaScript exception is an `Except.error` carrying the
thrown message.
-/

namespace Forte

/-- A row of the `leads` table, with the columns used by the edge
functions (schema from the generated Supabase `Database` types). -/
structure Lead where
  id : Nat
  director_email : String
  director_first_name : String
  director_last_name : String
  director_phone_number : Option String := none
  school_name : Option String := none
  ensemble_program_name : Option String := none
  workout_program_name : Option String := none
  estimated_performers : Option Nat := none
  season : Option String := none
  early_bird_deadline : Option String := none
  status : String := "New Lead"
  follow_up_count : Nat := 0
  reply_detected : Bool := false
  last_communication_date : Option Int := none
  last_reply_content : Option String := none
  quote_sent_date : Option Int := none
  form_submission_date : Option Int := none
  payment_date : Option Int := none
  invoice_status : Option String := none
  standard_rate_sr : Option Rat := none
  discount_rate_dr : Option Rat := none
  savings : Option Rat := none
  ai_suggested_message : Option String := none
  quickbooks_customer_id : Option String := none
  last_email_sent_type : Option String := none
  last_sms_sent_type : Option String := none
  deriving Repr, DecidableEq

/-- A row of the append-only `communication_history` table.  The JSON
`metadata` column is represented by the two fields the code writes into
it (`type` and `twilioSid`). -/
structure CommRecord where
  lead_id : Nat
  communication_type : String
  direction : String
  subject : Option String := none
  content : String
  external_id : Option String := none
  metadata_type : Option String := none
  metadata_twilioSid : Option String := none
  sent_at : Int
  deriving Repr, DecidableEq

/-- A row of the `follow_up_templates` table. -/
structure FollowUpTemplate where
  sequence_number : Nat
  email_subject : String
  email_body : String
  sms_message : String
  is_active : Bool
  deriving Repr, DecidableEq

/-- A row of the `ai_models` table. -/
structure AIModel where
  name : String
  provider : String
  model_id : String
  is_primary : Bool
  is_fallback : Bool
  deriving Repr, DecidableEq

/-! ## Follow-up scheduler (follow-up-automation function) -/

/-- The status list of the scheduler query:
`.in('status', ['Quote Sent', 'Follow-up Sent 1', 'Follow-up Sent 2', 'Follow-up Sent 3'])`. -/
def followUpStatuses : List String :=
  ["Quote Sent", "Follow-up Sent 1", "Follow-up Sent 2", "Follow-up Sent 3"]

/-- Four days in milliseconds: the `fourDaysAgo` cutoff computed by
`fourDaysAgo.setDate(fourDaysAgo.getDate() - 4)`. -/
def fourDaysMs : Int := 4 * 24 * 60 * 60 * 1000

/-- The WHERE clause of the scheduler's lead query:
`.eq('reply_detected', false) .in('status', followUpStatuses)
.lt('last_communication_date', fourDaysAgo) .lt('follow_up_count', 4)`.
A NULL `last_communication_date` does not satisfy the SQL `<`. -/
def needsFollowUp (now : Int) (l : Lead) : Bool :=
  l.reply_detected == false &&
  followUpStatuses.contains l.status &&
  (match l.last_communication_date with
   | some d => decide (d < now - fourDaysMs)
   | none => false) &&
  decide (l.follow_up_count < 4)

/-- The set of leads returned by the scheduler's select. -/
def schedulerSelect (now : Int) (leads : List Lead) : List Lead :=
  leads.filter (needsFollowUp now)

/-- Template lookup
`.eq('sequence_number', n).eq('is_active', true).single()`; `.single()`
errors unless exactly one row matches. -/
def findTemplate (templates : List FollowUpTemplate) (n : Nat) :
    Option FollowUpTemplate :=
  match templates.filter (fun t => t.sequence_number == n && t.is_active) with
  | [t] => some t
  | _ => none

/-- The per-lead body of the scheduler loop: look up the template for
`follow_up_count + 1`; if absent, `continue` (lead unchanged); otherwise
dispatch and update status, count, dates and sent types. -/
def followUpStep (templates : List FollowUpTemplate) (now : Int) (l : Lead) :
    Lead :=
  match findTemplate templates (l.follow_up_count + 1) with
  | none => l
  | some _ =>
    let n := l.follow_up_count + 1
    { l with
      status := "Follow-up Sent " ++ toString n
      follow_up_count := n
      last_communication_date := some now
      last_email_sent_type := some ("follow_up_" ++ toString n)
      last_sms_sent_type := some ("follow_up_" ++ toString n ++ "_sms") }

/-- Effect of one scheduler invocation on a single lead: stepped when it
matches the select, untouched otherwise. -/
def tickLead (templates : List FollowUpTemplate) (now : Int) (l : Lead) :
    Lead :=
  if needsFollowUp now l then followUpStep templates now l else l

/-- Effect of one scheduler invocation on the whole `leads` table. -/
def schedulerTick (templates : List FollowUpTemplate) (now : Int)
    (leads : List Lead) : List Lead :=
  leads.map (tickLead templates now)

/-! ## Lead ingestion (webhook-lead-ingestion function) -/

/-- The ingestion POST body.  The source interface `LeadSubmissionData`
declares the director fields plus `[key: string]: any`, and the handler
spreads the whole body into the row (`...submissionData`), so any column
of the `leads` table — including `follow_up_count`, `reply_detected` and
`status` — may be carried by the payload. -/
structure LeadSubmission where
  director_first_name : Option String := none
  director_last_name : Option String := none
  director_email : Option String := none
  director_phone_number : Option String := none
  school_name : Option String := none
  ensemble_program_name : Option String := none
  workout_program_name : Option String := none
  estimated_performers : Option Nat := none
  season : Option String := none
  early_bird_deadline : Option String := none
  follow_up_count : Option Nat := none
  reply_detected : Option Bool := none
  status : Option String := none
  deriving Repr, DecidableEq

/-- JavaScript truthiness of an optional string field: absent and `""`
are both falsy. -/
def presentStr : Option String → Bool
  | some s => !s.isEmpty
  | none => false

/-- The validation guard
`if (!submissionData.director_email || !submissionData.director_first_name
|| !submissionData.director_last_name) throw ...`. -/
def validSubmission (s : LeadSubmission) : Bool :=
  presentStr s.director_email && presentStr s.director_first_name &&
  presentStr s.director_last_name

/-- The update branch of the upsert: `{...submissionData, ...}` — every
column present in the payload overwrites the stored row. -/
def applySubmission (l : Lead) (s : LeadSubmission) : Lead :=
  { l with
    director_first_name := s.director_first_name.getD l.director_first_name
    director_last_name := s.director_last_name.getD l.director_last_name
    director_email := s.director_email.getD l.director_email
    director_phone_number :=
      (s.director_phone_number.map some).getD l.director_phone_number
    school_name := (s.school_name.map some).getD l.school_name
    ensemble_program_name :=
      (s.ensemble_program_name.map some).getD l.ensemble_program_name
    workout_program_name :=
      (s.workout_program_name.map some).getD l.workout_program_name
    estimated_performers :=
      (s.estimated_performers.map some).getD l.estimated_performers
    season := (s.season.map some).getD l.season
    early_bird_deadline :=
      (s.early_bird_deadline.map some).getD l.early_bird_deadline
    follow_up_count := s.follow_up_count.getD l.follow_up_count
    reply_detected := s.reply_detected.getD l.reply_detected
    status := s.status.getD l.status }

/-- The insert branch of the upsert: `{...submissionData, status: 'New
Lead', form_submission_date: currentTime, follow_up_count: 0,
reply_detected: false}` — the explicit fields override the payload. -/
def newLeadFromSubmission (s : LeadSubmission) (newId : Nat) (now : Int) :
    Lead :=
  { id := newId
    director_email := s.director_email.getD ""
    director_first_name := s.director_first_name.getD ""
    director_last_name := s.director_last_name.getD ""
    director_phone_number := s.director_phone_number
    school_name := s.school_name
    ensemble_program_name := s.ensemble_program_name
    workout_program_name := s.workout_program_name
    estimated_performers := s.estimated_performers
    season := s.season
    early_bird_deadline := s.early_bird_deadline
    status := "New Lead"
    form_submission_date := some now
    follow_up_count := 0
    reply_detected := false }

/-- The JSON body and HTTP status of the ingestion response. -/
structure IngestionResponse where
  status : Nat
  success : Bool
  action : Option String := none
  leadId : Option Nat := none
  deriving Repr, DecidableEq

/-- The `webhook-lead-ingestion` handler: validation, upsert keyed by
`director_email`, then invocation of `ai-quote-generator` (the Boolean in
the result records whether that invocation happened).  A validation
failure throws and is answered by the generic catch block, which returns
`status: 500`. -/
def webhookLeadIngestion (db : List Lead) (s : LeadSubmission) (newId : Nat)
    (now : Int) : IngestionResponse × List Lead × Bool :=
  if !validSubmission s then
    ({ status := 500, success := false }, db, false)
  else
    match db.find? (fun l => l.director_email == s.director_email.getD "") with
    | some l =>
      let l2 := applySubmission l s
      ({ status := 200, success := true, action := some "updated",
         leadId := some l.id },
       db.map (fun x => if x.id == l.id then l2 else x), true)
    | none =>
      let l2 := newLeadFromSubmission s newId now
      ({ status := 200, success := true, action := some "created",
         leadId := some newId },
       db ++ [l2], true)

/-! ## Quote generation (ai-quote-generator function) -/

/-- The JSON object the quote prompt asks the provider to return; every
key is optional because the code never checks for presence. -/
structure QuoteJson where
  emailSubject : Option String := none
  emailContent : Option String := none
  smsContent : Option String := none
  standardRate : Option Rat := none
  discountRate : Option Rat := none
  savings : Option Rat := none
  deriving Repr, DecidableEq

/-- Outcome of one provider HTTP round-trip, at the granularity the code
distinguishes: non-2xx response, missing/empty content, content that is
not valid JSON, or a parsed JSON document. -/
inductive ProviderHttp where
  | httpError (statusText : String)
  | emptyContent
  | invalidJson
  | json (j : QuoteJson)
  deriving Repr, DecidableEq

/-- Function `callGeminiAPI` of ai-quote-generator: throws on non-ok response,
missing content, or a JSON parse failure; otherwise returns
`JSON.parse(content)` with no check of the keys. -/
def callGeminiAPI : ProviderHttp → Except String QuoteJson
  | .httpError st => .error ("Gemini API error: " ++ st)
  | .emptyContent => .error "No content generated by Gemini"
  | .invalidJson => .error "Failed to parse Gemini response as JSON"
  | .json j => .ok j

/-- Function `callOpenAIAPI` of ai-quote-generator: same shape as `callGeminiAPI`,
again with no check of the returned keys. -/
def callOpenAIAPI : ProviderHttp → Except String QuoteJson
  | .httpError st => .error ("OpenAI API error: " ++ st)
  | .emptyContent => .error "No content generated by OpenAI"
  | .invalidJson => .error "Failed to parse OpenAI response as JSON"
  | .json j => .ok j

/-- The pricing instructions that `generateQuote` embeds in the prompt
text sent to the AI provider. -/
def quotePromptPricingRules : String :=
  "Calculate pricing based on these rules:\n" ++
  "- Base rate: $15 per performer for programs with 50+ performers\n" ++
  "- Base rate: $18 per performer for programs with fewer than 50 performers\n" ++
  "- Early bird discount: 15% off if deadline is mentioned\n" ++
  "- Minimum order: $500\n"

/-- JavaScript `x || 'Not specified'` on an optional string field. -/
def orNotSpecified : Option String → String
  | some s => if s.isEmpty then "Not specified" else s
  | none => "Not specified"

/-- The lead-information part of the quote prompt. -/
def quotePromptHeader (l : Lead) : String :=
  "\nYou are an AI assistant for a music education equipment company. " ++
  "Generate a personalized quote for the following lead:\n\n" ++
  "Lead Information:\n" ++
  "- Director: " ++ l.director_first_name ++ " " ++ l.director_last_name ++ "\n" ++
  "- Email: " ++ l.director_email ++ "\n" ++
  "- School/Organization: " ++ orNotSpecified l.school_name ++ "\n" ++
  "- Program: " ++
    orNotSpecified (match l.ensemble_program_name with
      | some s => some s
      | none => l.workout_program_name) ++ "\n" ++
  "- Estimated Performers: " ++
    (match l.estimated_performers with
      | some n => toString n
      | none => "Not specified") ++ "\n" ++
  "- Season: " ++ orNotSpecified l.season ++ "\n" ++
  "- Early Bird Deadline: " ++ orNotSpecified l.early_bird_deadline ++ "\n\n"

/-- The part of the quote prompt after the pricing rules: the email and
SMS instructions and the requested JSON shape. -/
def quotePromptTail : String :=
  "\nGenerate a professional email that includes:\n" ++
  "1. Personal greeting using their name\n" ++
  "2. Quote details with pricing breakdown\n" ++
  "3. Early bird savings if applicable\n" ++
  "4. Call to action\n" ++
  "5. Professional signature\n\n" ++
  "Also generate a short SMS notification (160 characters max).\n\n" ++
  "Return your response as a JSON object with:\n" ++
  "\x7b\n  \"emailSubject\": \"...\",\n  \"emailContent\": \"...\",\n" ++
  "  \"smsContent\": \"...\",\n  \"standardRate\": number,\n" ++
  "  \"discountRate\": number,\n  \"savings\": number\n\x7d\n"

/-- The prompt `generateQuote` builds: lead facts, the pricing rules, and
the requested JSON shape.  The arithmetic itself is delegated to the
provider — nothing in the function computes a rate. -/
def quotePrompt (l : Lead) : String :=
  quotePromptHeader l ++ quotePromptPricingRules ++ quotePromptTail

/-- Function `generateQuote`: dispatch on the model's provider and the configured
API keys; the returned quote is whatever the provider call parsed. -/
def generateQuote (geminiKey openaiKey : Bool) (m : AIModel)
    (resp : ProviderHttp) : Except String QuoteJson :=
  if m.provider == "gemini" && geminiKey then callGeminiAPI resp
  else if m.provider == "openai" && openaiKey then callOpenAIAPI resp
  else .error ("API key not configured for provider: " ++ m.provider)

/-- The try/catch around `generateQuote` in the ai-quote-generator
handler: try the primary model; on a thrown error, call the fallback
model once if configured, otherwise throw the final error. -/
def quoteWithFallback (primary : AIModel) (fallback : Option AIModel)
    (callModel : AIModel → Except String QuoteJson) :
    Except String QuoteJson :=
  match callModel primary with
  | .ok r => .ok r
  | .error _ =>
    match fallback with
    | some f => callModel f
    | none => .error "Primary AI failed and no fallback model available"

/-- The lead update the handler performs after a successful quote: the
stored rates are copied verbatim from the provider's JSON. -/
def quoteLeadUpdate (l : Lead) (now : Int) (q : QuoteJson) : Lead :=
  { l with
    status := "Quote Sent"
    quote_sent_date := some now
    last_communication_date := some now
    standard_rate_sr := q.standardRate
    discount_rate_dr := q.discountRate
    savings := q.savings
    ai_suggested_message := q.emailContent }

/-- Modelled from the spec: the deterministic pricing rule of §4.4 and
§8 ($15 per performer when `estimatedPerformers ≥ 50`, else $18; 15%
reduction when an early-bird deadline is present; $500 floor), stated
here only for comparison with the behaviour of the source, which
delegates the arithmetic to the AI provider. -/
def specQuoteTotal (performers : Nat) (hasDeadline : Bool) : Rat :=
  let rate : Rat := if performers ≥ 50 then 15 else 18
  let total : Rat := rate * performers
  let total : Rat := if hasDeadline then total * (85 / 100) else total
  max total 500

/-! ## Reply-intent classification (reply-detection function and the
four-way variant embedded in the send-sms source file) -/

/-- The parsed classifier output.  `intentType` is optional: the coarse
classifier's prompt and fallback do not produce it. -/
structure IntentResult where
  purchaseIntent : Bool
  intentType : Option String := none
  primaryConcern : Option String := none
  suggestedResponse : String
  confidence : Rat
  deriving Repr, DecidableEq

/-- The constant part of the degraded acknowledgment message, after the
lead's first name. -/
def replyFallbackTail : String :=
  ". We\x27ve received your message and will review it shortly. " ++
  "Someone from our team will get back to you within 24 hours."

/-- The deterministic degraded result returned by the catch block of the
four-way `analyzeReplyContent` (send-sms source file). -/
def fallbackIntentFourWay (firstName : String) : IntentResult :=
  { purchaseIntent := false
    intentType := some "inquiry"
    primaryConcern := some "Unable to analyze - using fallback"
    suggestedResponse :=
      "Thank you for your reply, " ++ firstName ++ replyFallbackTail
    confidence := 0 }

/-- The deterministic degraded result returned by the catch block of the
coarse `analyzeReplyContent` (reply-detection function).  It carries no
`intentType` key at all. -/
def fallbackIntentCoarse (firstName : String) : IntentResult :=
  { purchaseIntent := false
    intentType := none
    primaryConcern := some "Unable to analyze"
    suggestedResponse :=
      "Thank you for your reply, " ++ firstName ++ replyFallbackTail
    confidence := 0 }

/-- Shared shape of both `analyzeReplyContent` functions:
`try { if (primaryModel) return callAIModel(prompt, primaryModel);
else if (fallbackModel) return callAIModel(prompt, fallbackModel); }
catch { return default }`.  The fallback model is consulted only when no
primary model is configured; a thrown call lands in the catch.  When no
model exists at all the function falls off the end and returns
`undefined`, modelled as `none`. -/
def analyzeReplyWith (defaultResult : String → IntentResult)
    (primary fallback : Option AIModel)
    (callModel : AIModel → Except String IntentResult)
    (firstName : String) : Option IntentResult :=
  match primary with
  | some m =>
    match callModel m with
    | .ok r => some r
    | .error _ => some (defaultResult firstName)
  | none =>
    match fallback with
    | some m =>
      match callModel m with
      | .ok r => some r
      | .error _ => some (defaultResult firstName)
    | none => none

/-- Function `analyzeReplyContent` of the four-way classifier (send-sms source
file, second embedded function). -/
def analyzeReplyContentFourWay (primary fallback : Option AIModel)
    (callModel : AIModel → Except String IntentResult)
    (firstName : String) : Option IntentResult :=
  analyzeReplyWith fallbackIntentFourWay primary fallback callModel firstName

/-- Function `analyzeReplyContent` of the coarse classifier (reply-detection
function). -/
def analyzeReplyContentCoarse (primary fallback : Option AIModel)
    (callModel : AIModel → Except String IntentResult)
    (firstName : String) : Option IntentResult :=
  analyzeReplyWith fallbackIntentCoarse primary fallback callModel firstName

/-! ## Outreach dispatch (send-sms and send-email functions) -/

/-- The send-sms POST body. -/
structure SMSRequest where
  toRecipient : Option String := none
  message : Option String := none
  leadId : Option Nat := none
  type : Option String := none
  deriving Repr, DecidableEq

/-- The send-email POST body. -/
structure EmailRequest where
  toRecipient : Option String := none
  subject : Option String := none
  content : Option String := none
  leadId : Option Nat := none
  type : Option String := none
  deriving Repr, DecidableEq

/-- Outcome of the Twilio API call. -/
structure TwilioOutcome where
  ok : Bool
  sid : String
  deriving Repr, DecidableEq

/-- HTTP status and JSON body of a dispatch response. -/
structure DispatchResponse where
  status : Nat
  success : Bool
  messageId : Option String := none
  deriving Repr, DecidableEq

/-- Phone cleaning, the expression that keeps only digits and the plus sign from the recipient number. -/
def cleanPhone (s : String) : String :=
  String.mk (s.toList.filter (fun c => c.isDigit || c == '+'))

/-- The send-sms handler.  Result: the HTTP response, the
`communication_history` rows the handler inserts, and the lead update
(new `last_communication_date` / `last_sms_sent_type`) if any.  A Twilio
failure throws before the insert, so a failed send appends no record. -/
def sendSmsHandler (twilioConfigured : Bool) (twilio : TwilioOutcome)
    (req : SMSRequest) (now : Int) :
    DispatchResponse × List CommRecord × Option (Int × Option String) :=
  if !(presentStr req.toRecipient && presentStr req.message) then
    ({ status := 500, success := false }, [], none)
  else if !twilioConfigured then
    ({ status := 400, success := false }, [], none)
  else if (cleanPhone (req.toRecipient.getD "")).isEmpty then
    ({ status := 500, success := false }, [], none)
  else if !twilio.ok then
    ({ status := 500, success := false }, [], none)
  else
    match req.leadId with
    | some lid =>
      ({ status := 200, success := true, messageId := some twilio.sid },
       [{ lead_id := lid
          communication_type := "sms"
          direction := "outbound"
          content := req.message.getD ""
          external_id := some twilio.sid
          metadata_type := req.type
          metadata_twilioSid := some twilio.sid
          sent_at := now }],
       some (now, req.type))
    | none =>
      ({ status := 200, success := true, messageId := some twilio.sid },
       [], none)

/-- The send-email handler (embedded in the reply-detection source
file).  `resend.emails.send` either throws (`Except.error`) or returns a
possibly-missing provider id.  The handler only `console.log`s the
leadId — it never inserts a `communication_history` row, on success or
failure. -/
def sendEmailHandler (sendResult : Except String (Option String))
    (req : EmailRequest) : DispatchResponse × List CommRecord :=
  if !(presentStr req.toRecipient && presentStr req.subject && presentStr req.content)
  then
    ({ status := 500, success := false }, [])
  else
    match sendResult with
    | .error _ => ({ status := 500, success := false }, [])
    | .ok mid => ({ status := 200, success := true, messageId := mid }, [])

/-! ## Conversion coordinator (quickbooks-conversion function) -/

/-- True when `p` occurs as a substring of `s`, over character
lists — the model of JavaScript `s.includes(p)`. -/
def startsWithChars : List Char → List Char → Bool
  | _, [] => true
  | [], _ :: _ => false
  | a :: as, p :: ps => a == p && startsWithChars as ps

def containsSub : List Char → List Char → Bool
  | [], p => startsWithChars [] p
  | a :: as, p => startsWithChars (a :: as) p || containsSub as p

def strContains (s pat : String) : Bool :=
  containsSub s.toList pat.toList

/-- Outcome of the QuickBooks customer-creation POST, at the granularity
`createQuickBooksCustomer` distinguishes. -/
inductive QBCreateResp where
  | notOk (statusText errorText : String)
  | okQueryShape (id : String)
  | okCustomerShape (id : String)
  | okInvalid
  deriving Repr, DecidableEq

/-- Function `createQuickBooksCustomer`: throws with the statusText and error
details on a non-ok response; accepts either response shape; throws on a
shape without a customer id. -/
def createQuickBooksCustomer : QBCreateResp → Except String String
  | .notOk st et =>
    .error ("Failed to create QuickBooks customer: " ++ st ++
      ". Details: " ++ et)
  | .okQueryShape i => .ok i
  | .okCustomerShape i => .ok i
  | .okInvalid =>
    .error "QuickBooks API returned an invalid response for customer creation."

/-- Outcome of the QuickBooks lookup-by-name query. -/
inductive QBQueryResp where
  | notOk (statusText : String)
  | customers (ids : List String)
  deriving Repr, DecidableEq

/-- Function `findExistingCustomer`: SELECT by the lead's full name; throws on a
non-ok response or an empty result, otherwise returns the first found
customer id. -/
def findExistingCustomer : QBQueryResp → Except String String
  | .notOk st => .error ("QuickBooks customer search failed: " ++ st)
  | .customers [] => .error "No existing customer found with matching name"
  | .customers (c :: _) => .ok c

/-- The customer-resolution step of the quickbooks-conversion handler:
use the stored `quickbooks_customer_id` when present (no creation
attempted); otherwise create, and when creation throws with a message
containing `'Duplicate Name'`, fall back to the lookup-by-name query.
The second component counts writes of `quickbooks_customer_id` to the
lead row. -/
def resolveCustomerId (stored : Option String) (createResp : QBCreateResp)
    (queryResp : QBQueryResp) : Except String (String × Nat) :=
  match stored with
  | some cid => .ok (cid, 0)
  | none =>
    match createQuickBooksCustomer createResp with
    | .ok cid => .ok (cid, 1)
    | .error msg =>
      if strContains msg "Duplicate Name" then
        match findExistingCustomer queryResp with
        | .ok cid => .ok (cid, 1)
        | .error e => .error ("QuickBooks customer search failed: " ++ e)
      else .error msg

/-- The lead update the conversion handler performs after invoice
creation. -/
def conversionLeadUpdate (l : Lead) : Lead :=
  { l with
    status := "Invoice Sent"
    invoice_status := some "sent"
    payment_date := none }

/-- The invoice amount `discount_rate_dr || standard_rate_sr || 500`;
JavaScript `||` skips null and zero. -/
def invoiceAmount (l : Lead) : Rat :=
  match l.discount_rate_dr with
  | some d => if d == 0 then
      (match l.standard_rate_sr with
       | some s => if s == 0 then 500 else s
       | none => 500)
    else d
  | none =>
    match l.standard_rate_sr with
    | some s => if s == 0 then 500 else s
    | none => 500

/-! ## Reply ingestion (reply-detection serve handler) -/

/-- The two tables the reply handler touches. -/
structure DB where
  leads : List Lead
  comms : List CommRecord
  deriving Repr, DecidableEq

/-- The reply-detection POST body. -/
structure ReplyRequest where
  leadEmail : String
  replyContent : String
  replySubject : Option String := none
  replyTimestamp : Option Int := none
  deriving Repr, DecidableEq

/-- Lead lookup by email, the maybeSingle query on director_email. -/
def findLeadByEmail (db : DB) (email : String) : Option Lead :=
  db.leads.find? (fun l => l.director_email == email)

/-- Row update keyed by the lead id. -/
def updateLead (db : DB) (i : Nat) (f : Lead → Lead) : DB :=
  { db with leads := db.leads.map (fun l => if l.id == i then f l else l) }

/-- Insertion into the communication_history table. -/
def appendComm (db : DB) (r : CommRecord) : DB :=
  { db with comms := db.comms ++ [r] }

/-- The first update of the reply handler:
`reply_detected: true, last_reply_content, last_communication_date`. -/
def markReplyDetected (content : String) (ts : Int) (l : Lead) : Lead :=
  { l with
    reply_detected := true
    last_reply_content := some content
    last_communication_date := some ts }

/-- The inbound `communication_history` row the reply handler inserts. -/
def inboundRecord (leadId : Nat) (req : ReplyRequest) (now : Int) :
    CommRecord :=
  { lead_id := leadId
    communication_type := "email"
    direction := "inbound"
    subject := req.replySubject
    content := req.replyContent
    sent_at := req.replyTimestamp.getD now }

/-- The status update performed after classification: either the
conversion branch or the acknowledgement branch, depending on
`analysisResult.purchaseIntent`; both write only `status` and
`ai_suggested_message`. -/
def replyStatusUpdate (r : IntentResult) (l : Lead) : Lead :=
  if r.purchaseIntent then
    { l with
      status := "Converted - Invoice Sent"
      ai_suggested_message := some r.suggestedResponse }
  else
    { l with
      status := "Reply Received - Awaiting Action"
      ai_suggested_message := some r.suggestedResponse }

/-- The reply-detection serve handler: 404 when no lead matches the
email; otherwise mark the reply detected and insert the inbound record
*before* invoking the classifier.  `analysis` is the classifier's return
value; `none` models the configuration with no AI model at all, in which
case reading `analysisResult.purchaseIntent` throws a TypeError and the
catch block answers 500 — with the first two writes already applied.
Outbound dispatch is a separate function invocation whose error object
the handler ignores, so it affects neither branch. -/
def replyDetectionHandler (db : DB) (req : ReplyRequest) (now : Int)
    (analysis : Option IntentResult) : Nat × DB :=
  match findLeadByEmail db req.leadEmail with
  | none => (404, db)
  | some lead =>
    let db1 := updateLead db lead.id
      (markReplyDetected req.replyContent (req.replyTimestamp.getD now))
    let db2 := appendComm db1 (inboundRecord lead.id req now)
    match analysis with
    | none => (500, db2)
    | some r => (200, updateLead db2 lead.id (replyStatusUpdate r))

/-! ## Helper lemmas -/

/-- Unfolding of the scheduler's WHERE clause into propositional form. -/
theorem needsFollowUp_iff (now : Int) (l : Lead) :
    needsFollowUp now l = true ↔
      l.reply_detected = false ∧ l.status ∈ followUpStatuses ∧
      (∃ d, l.last_communication_date = some d ∧ d < now - fourDaysMs) ∧
      l.follow_up_count < 4 := by
  unfold needsFollowUp
  cases h : l.last_communication_date with
  | none => simp [h, List.elem_iff]
  | some d => simp [h, List.elem_iff, and_assoc]

/-- A lead whose `reply_detected` flag is set never passes the
scheduler's filter. -/
theorem not_selected_of_reply_detected (now : Int) (leads : List Lead)
    (l : Lead) (h : l.reply_detected = true) :
    l ∉ schedulerSelect now leads := by
  intro hmem
  rw [schedulerSelect, List.mem_filter] at hmem
  have h2 := (needsFollowUp_iff now l).mp hmem.2
  rw [h] at h2
  exact absurd h2.1 (by simp)

/-- The follow-up count after one scheduler pass over a single lead:
unchanged, or incremented by exactly one from a value below 4. -/
theorem tickLead_count (templates : List FollowUpTemplate) (now : Int)
    (l : Lead) :
    (tickLead templates now l).follow_up_count = l.follow_up_count ∨
      (l.follow_up_count < 4 ∧
        (tickLead templates now l).follow_up_count = l.follow_up_count + 1) := by
  unfold tickLead
  by_cases h : needsFollowUp now l = true
  · rw [if_pos h]
    unfold followUpStep
    cases htmp : findTemplate templates (l.follow_up_count + 1) with
    | none => left; rfl
    | some t => right; exact ⟨((needsFollowUp_iff now l).mp h).2.2.2, rfl⟩
  · rw [if_neg h]
    left; rfl

/-! ## Claim theorems -/

/-- C1 (amended): lead creation initialises `follow_up_count` to 0;
quote generation, reply handling and conversion leave it unchanged; the
Follow-up Scheduler changes it only by incrementing by exactly one on a
lead whose count is strictly below 4, so a scheduler pass is
non-decreasing and preserves the bound 4.  (The ingestion update is the
exception — see the counterexample.) -/
theorem followUpCount_per_operation (templates : List FollowUpTemplate)
    (now ts : Int) (l : Lead) (q : QuoteJson) (r : IntentResult)
    (c : String) (s : LeadSubmission) (newId : Nat)
    (hbound : l.follow_up_count ≤ 4) :
    ((tickLead templates now l).follow_up_count = l.follow_up_count ∨
      (l.follow_up_count < 4 ∧
        (tickLead templates now l).follow_up_count = l.follow_up_count + 1)) ∧
    l.follow_up_count ≤ (tickLead templates now l).follow_up_count ∧
    (tickLead templates now l).follow_up_count ≤ 4 ∧
    (quoteLeadUpdate l now q).follow_up_count = l.follow_up_count ∧
    (markReplyDetected c ts l).follow_up_count = l.follow_up_count ∧
    (replyStatusUpdate r l).follow_up_count = l.follow_up_count ∧
    (conversionLeadUpdate l).follow_up_count = l.follow_up_count ∧
    (newLeadFromSubmission s newId now).follow_up_count = 0 := by
  refine ⟨tickLead_count templates now l, ?_, ?_, rfl, rfl, ?_, rfl, rfl⟩
  · rcases tickLead_count templates now l with h | ⟨hlt, h⟩ <;> omega
  · rcases tickLead_count templates now l with h | ⟨hlt, h⟩ <;> omega
  · unfold replyStatusUpdate
    by_cases hp : r.purchaseIntent = true <;> simp [hp]

/-- Witness for `followUpCount_per_operation` at a concrete lead with
count 2 and an empty template table. -/
theorem followUpCount_per_operation_witness :
    (2 : Nat) ≤ 4 ∧
    ((tickLead [] 0 ({ id := 1, director_email := "a@b.c",
                       director_first_name := "A", director_last_name := "B",
                       follow_up_count := 2 } : Lead)).follow_up_count ≤ 4 ∧
      (newLeadFromSubmission {} 7 0).follow_up_count = 0) :=
  ⟨by decide,
   (followUpCount_per_operation [] 0 0
      { id := 1, director_email := "a@b.c", director_first_name := "A",
        director_last_name := "B", follow_up_count := 2 }
      {} { purchaseIntent := false, suggestedResponse := "", confidence := 0 }
      "" {} 7 (by decide)).2.2.1,
   (followUpCount_per_operation [] 0 0
      { id := 1, director_email := "a@b.c", director_first_name := "A",
        director_last_name := "B", follow_up_count := 2 }
      {} { purchaseIntent := false, suggestedResponse := "", confidence := 0 }
      "" {} 7 (by decide)).2.2.2.2.2.2.2⟩

/-- C1 counterexample: the ingestion handler spreads the raw POST body
into the stored row, so a payload carrying `follow_up_count: 7` drives a
lead's count from 2 to 7 — above the claimed bound of 4. -/
theorem followUpCount_ingestion_counterexample :
    ((webhookLeadIngestion
        [{ id := 1, director_email := "a@b.c", director_first_name := "A",
           director_last_name := "B", follow_up_count := 2 }]
        { director_email := some "a@b.c", director_first_name := some "A",
          director_last_name := some "B", follow_up_count := some 7 }
        2 0).2.1.map Lead.follow_up_count) = [7] ∧ ¬(7 ≤ 4) := by
  constructor
  · rfl
  · decide

/-- C2: on each invocation the Follow-up Scheduler selects exactly the
leads with `reply_detected = false`, status among the four follow-up
statuses, `last_communication_date` strictly older than four days before
the invocation time, and `follow_up_count < 4`; consequently a lead with
`reply_detected = true` is never selected. -/
theorem schedulerSelect_exact (now : Int) (leads : List Lead) :
    (∀ l : Lead, l ∈ schedulerSelect now leads ↔
      l ∈ leads ∧ l.reply_detected = false ∧ l.status ∈ followUpStatuses ∧
      (∃ d, l.last_communication_date = some d ∧ d < now - fourDaysMs) ∧
      l.follow_up_count < 4) ∧
    (∀ l : Lead, l.reply_detected = true → l ∉ schedulerSelect now leads) := by
  constructor
  · intro l
    rw [schedulerSelect, List.mem_filter, needsFollowUp_iff]
  · intro l h
    exact not_selected_of_reply_detected now leads l h

/-- Witness for `schedulerSelect_exact`: a concrete replied lead is not
selected. -/
theorem schedulerSelect_exact_witness :
    ({ id := 1, director_email := "a@b.c", director_first_name := "A",
       director_last_name := "B", status := "Quote Sent",
       reply_detected := true,
       last_communication_date := some (-999999999) } : Lead) ∉
      schedulerSelect 0
        [{ id := 1, director_email := "a@b.c", director_first_name := "A",
           director_last_name := "B", status := "Quote Sent",
           reply_detected := true,
           last_communication_date := some (-999999999) }] :=
  (schedulerSelect_exact 0
    [{ id := 1, director_email := "a@b.c", director_first_name := "A",
       director_last_name := "B", status := "Quote Sent",
       reply_detected := true,
       last_communication_date := some (-999999999) }]).2 _ rfl

/-- C3 (amended): the quote pricing arithmetic is delegated to the AI
provider — the pricing rules appear as instructions inside the prompt
text, and the rates stored on the lead are copied verbatim from the
provider's JSON response, for every response the provider may give. -/
theorem quotePricing_from_provider (l : Lead) (now : Int) (q : QuoteJson) :
    (quoteLeadUpdate l now q).standard_rate_sr = q.standardRate ∧
    (quoteLeadUpdate l now q).discount_rate_dr = q.discountRate ∧
    (quoteLeadUpdate l now q).savings = q.savings ∧
    (∃ a b, quotePrompt l = a ++ quotePromptPricingRules ++ b) :=
  ⟨rfl, rfl, rfl, quotePromptHeader l, quotePromptTail, rfl⟩

/-- C3 counterexample: for a lead with 60 performers and no early-bird
deadline the claimed deterministic rule gives $15 × 60 = $900, but when
the provider's JSON says `standardRate: 7` the code stores $7 — the
arithmetic is performed by the AI, not by the code. -/
theorem quotePricing_counterexample :
    (quoteLeadUpdate
        ({ id := 1, director_email := "a@b.c", director_first_name := "A",
           director_last_name := "B",
           estimated_performers := some 60 } : Lead)
        0 { standardRate := some 7 }).standard_rate_sr = some 7 ∧
    specQuoteTotal 60 false = 900 ∧ (7 : Rat) ≠ 900 ∧
    callGeminiAPI (.json { standardRate := some 7 }) =
      .ok { standardRate := some 7 } := by
  refine ⟨rfl, ?_, by norm_num, rfl⟩
  unfold specQuoteTotal
  norm_num

/-- C4 (amended): the provider calls of quote generation fail exactly on
a non-2xx response, missing/empty content, or content that is not valid
JSON; a successfully parsed JSON document is accepted verbatim with no
check of its keys, so missing `standardRate`/`discountRate`/
`emailContent` do not cause an error. -/
theorem quoteParse_accepts_missing_keys (j : QuoteJson) (st : String) :
    callGeminiAPI (.json j) = .ok j ∧ callOpenAIAPI (.json j) = .ok j ∧
    callGeminiAPI (.httpError st) = .error ("Gemini API error: " ++ st) ∧
    callGeminiAPI .emptyContent = .error "No content generated by Gemini" ∧
    callGeminiAPI .invalidJson =
      .error "Failed to parse Gemini response as JSON" ∧
    callOpenAIAPI (.httpError st) = .error ("OpenAI API error: " ++ st) ∧
    callOpenAIAPI .emptyContent = .error "No content generated by OpenAI" ∧
    callOpenAIAPI .invalidJson =
      .error "Failed to parse OpenAI response as JSON" :=
  ⟨rfl, rfl, rfl, rfl, rfl, rfl, rfl, rfl⟩

/-- C4 counterexample: the empty JSON object `{}` omits `standardRate`,
`discountRate` and `emailContent`, yet both provider calls return it
successfully instead of failing. -/
theorem quoteParse_counterexample :
    callGeminiAPI (.json {}) = .ok {} ∧
    callOpenAIAPI (.json {}) = .ok {} ∧
    ({} : QuoteJson).standardRate = none ∧
    ({} : QuoteJson).discountRate = none ∧
    ({} : QuoteJson).emailContent = none :=
  ⟨rfl, rfl, rfl, rfl, rfl⟩

/-- C5 (amended): when an AI model is attempted and its call throws,
neither classifier raises: the four-way classifier (send-sms source
file) returns the deterministic fallback with `purchaseIntent = false`,
`intentType = "inquiry"`, `confidence = 0` and an acknowledgment message
containing the lead's first name, exactly as claimed; the coarse
classifier (reply-detection function) returns the same fallback except
that it carries no `intentType` field at all. -/
theorem classifierFallback_on_total_failure (m : AIModel)
    (fb : Option AIModel)
    (callModel : AIModel → Except String IntentResult)
    (e firstName : String) (h : callModel m = .error e) :
    analyzeReplyContentFourWay (some m) fb callModel firstName =
      some (fallbackIntentFourWay firstName) ∧
    analyzeReplyContentCoarse (some m) fb callModel firstName =
      some (fallbackIntentCoarse firstName) ∧
    (fallbackIntentFourWay firstName).purchaseIntent = false ∧
    (fallbackIntentFourWay firstName).intentType = some "inquiry" ∧
    (fallbackIntentFourWay firstName).confidence = 0 ∧
    (∃ a b, (fallbackIntentFourWay firstName).suggestedResponse =
      a ++ firstName ++ b) ∧
    (fallbackIntentCoarse firstName).purchaseIntent = false ∧
    (fallbackIntentCoarse firstName).intentType = none ∧
    (fallbackIntentCoarse firstName).confidence = 0 := by
  unfold analyzeReplyContentFourWay analyzeReplyContentCoarse
    analyzeReplyWith
  refine ⟨?_, ?_, rfl, rfl, rfl,
    ⟨"Thank you for your reply, ", replyFallbackTail, rfl⟩,
    rfl, rfl, rfl⟩ <;> simp [h]

/-- Witness for `classifierFallback_on_total_failure` with a concrete
failing Gemini call. -/
theorem classifierFallback_witness :
    analyzeReplyContentFourWay
      (some { name := "g", provider := "gemini", model_id := "gemini-pro",
              is_primary := true, is_fallback := false })
      none (fun _ => .error "Gemini API request failed: 500") "John" =
      some (fallbackIntentFourWay "John") :=
  (classifierFallback_on_total_failure
    { name := "g", provider := "gemini", model_id := "gemini-pro",
      is_primary := true, is_fallback := false }
    none (fun _ => .error "Gemini API request failed: 500")
    "Gemini API request failed: 500" "John" rfl).1

/-- C5 counterexample: the coarse classifier's degraded result carries
no `intentType`, so the claimed `intentType = "inquiry"` fails for the
reply-detection classifier. -/
theorem classifierFallback_counterexample :
    analyzeReplyContentCoarse
      (some { name := "g", provider := "gemini", model_id := "gemini-pro",
              is_primary := true, is_fallback := false })
      none (fun _ => .error "Gemini API request failed: 500") "John" =
      some (fallbackIntentCoarse "John") ∧
    (fallbackIntentCoarse "John").intentType ≠ some "inquiry" := by
  exact ⟨rfl, by decide⟩

/-- C6 (amended): quote generation follows the claimed policy — on a
primary-model failure it performs exactly one further call, against the
fallback model when configured (surfacing that call's result, error
included), and fails with a final error when none is; but reply
classification does not: with a primary model configured, a thrown call
lands in the catch block and yields the degraded default, and the
configured fallback model is never consulted. -/
theorem aiRetryPolicy (primary f m1 m2 : AIModel)
    (callModel : AIModel → Except String QuoteJson)
    (callIntent : AIModel → Except String IntentResult)
    (e e2 firstName : String)
    (h : callModel primary = .error e) (h2 : callIntent m1 = .error e2) :
    quoteWithFallback primary (some f) callModel = callModel f ∧
    quoteWithFallback primary none callModel =
      .error "Primary AI failed and no fallback model available" ∧
    analyzeReplyContentFourWay (some m1) (some m2) callIntent firstName =
      some (fallbackIntentFourWay firstName) ∧
    analyzeReplyContentCoarse (some m1) (some m2) callIntent firstName =
      some (fallbackIntentCoarse firstName) := by
  unfold quoteWithFallback analyzeReplyContentFourWay
    analyzeReplyContentCoarse analyzeReplyWith
  refine ⟨?_, ?_, ?_, ?_⟩ <;> simp [h, h2]

/-- Witness for `aiRetryPolicy` with concrete models and failing
calls. -/
theorem aiRetryPolicy_witness :
    quoteWithFallback
      { name := "g", provider := "gemini", model_id := "gemini-pro",
        is_primary := true, is_fallback := false }
      (some { name := "o", provider := "openai", model_id := "gpt-4o",
              is_primary := false, is_fallback := true })
      (fun _ => .error "Gemini API error: 500") =
      .error "Gemini API error: 500" :=
  (aiRetryPolicy
    { name := "g", provider := "gemini", model_id := "gemini-pro",
      is_primary := true, is_fallback := false }
    { name := "o", provider := "openai", model_id := "gpt-4o",
      is_primary := false, is_fallback := true }
    { name := "g", provider := "gemini", model_id := "gemini-pro",
      is_primary := true, is_fallback := false }
    { name := "o", provider := "openai", model_id := "gpt-4o",
      is_primary := false, is_fallback := true }
    (fun _ => .error "Gemini API error: 500")
    (fun _ => .error "Gemini API request failed: 500")
    "Gemini API error: 500" "Gemini API request failed: 500" "John"
    rfl rfl).1

/-- C6 counterexample: with a failing primary model and a fallback model
whose call would succeed, the four-way classifier still returns the
degraded default — it never retries against the fallback model. -/
theorem aiRetryPolicy_counterexample :
    analyzeReplyContentFourWay
      (some { name := "g", provider := "gemini", model_id := "gemini-pro",
              is_primary := true, is_fallback := false })
      (some { name := "o", provider := "openai", model_id := "gpt-4o",
              is_primary := false, is_fallback := true })
      (fun m => if m.provider == "openai" then
          .ok { purchaseIntent := true, intentType := some "negotiating",
                suggestedResponse := "Happy to discuss pricing.",
                confidence := 1 }
        else .error "Gemini API request failed: 500")
      "John" = some (fallbackIntentFourWay "John") ∧
    fallbackIntentFourWay "John" ≠
      { purchaseIntent := true, intentType := some "negotiating",
        suggestedResponse := "Happy to discuss pricing.",
        confidence := 1 } := by
  exact ⟨rfl, by decide⟩

/-- C7 (amended): the SMS dispatcher appends exactly one
`communication_history` record only when the request is valid, Twilio is
configured, the cleaned number is non-empty, the transport send
succeeds, and a `leadId` is present; on a transport failure the handler
throws before the insert and appends nothing (the failure is not
recorded in any record's metadata).  The email dispatcher never appends
a record at all. -/
theorem commRecord_policy (cfg : Bool) (tw : TwilioOutcome)
    (req : SMSRequest) (now : Int)
    (sendResult : Except String (Option String)) (ereq : EmailRequest) :
    ((sendSmsHandler cfg tw req now).2.1.length = 1 ↔
      (presentStr req.toRecipient && presentStr req.message) = true ∧
      cfg = true ∧ (cleanPhone (req.toRecipient.getD "")).isEmpty = false ∧
      tw.ok = true ∧ req.leadId.isSome = true) ∧
    (tw.ok = false → (sendSmsHandler cfg tw req now).2.1 = []) ∧
    (sendEmailHandler sendResult ereq).2 = [] := by
  refine ⟨?_, ?_, ?_⟩
  · unfold sendSmsHandler
    by_cases hv : (presentStr req.toRecipient && presentStr req.message) = true
    · rw [if_neg (by simp [hv])]
      by_cases hc : cfg = true
      · rw [if_neg (by simp [hc])]
        by_cases hp : (cleanPhone (req.toRecipient.getD "")).isEmpty = true
        · rw [if_pos hp]
          simp [hv, hc, hp]
        · rw [if_neg hp]
          by_cases ht : tw.ok = true
          · rw [if_neg (by simp [ht])]
            cases hl : req.leadId with
            | some lid => simp [hv, hc, hp, ht, hl]
            | none => simp [hv, hc, hp, ht, hl]
          · rw [if_pos (by simp [ht])]
            simp [hv, hc, hp, ht]
      · rw [if_pos (by simp [hc])]
        simp [hv, hc]
    · rw [if_pos (by simp [hv])]
      simp [hv]
  · intro ht
    unfold sendSmsHandler
    by_cases hv : (presentStr req.toRecipient && presentStr req.message) = true
    · rw [if_neg (by simp [hv])]
      by_cases hc : cfg = true
      · rw [if_neg (by simp [hc])]
        by_cases hp : (cleanPhone (req.toRecipient.getD "")).isEmpty = true
        · rw [if_pos hp]
        · rw [if_neg hp, if_pos (by simp [ht])]
      · rw [if_pos (by simp [hc])]
    · rw [if_pos (by simp [hv])]
  · unfold sendEmailHandler
    by_cases hv :
        (presentStr ereq.toRecipient && presentStr ereq.subject &&
          presentStr ereq.content) = true
    · rw [if_neg (by simp [hv])]
      cases sendResult <;> rfl
    · rw [if_pos (by simp [hv])]

/-- Witness for `commRecord_policy`: a concrete failed Twilio send
appends no record. -/
theorem commRecord_policy_witness :
    (sendSmsHandler true { ok := false, sid := "" }
      { toRecipient := some "+15551234567", message := some "hello",
        leadId := some 1, type := some "quote_notification" } 0).2.1 = [] :=
  (commRecord_policy true { ok := false, sid := "" }
    { toRecipient := some "+15551234567", message := some "hello",
      leadId := some 1, type := some "quote_notification" } 0
    (.ok none) {}).2.1 rfl

/-- C7 counterexample: an SMS dispatch carrying a `leadId` whose Twilio
send fails appends zero records instead of the claimed one, and a
successful email dispatch carrying a `leadId` also appends zero. -/
theorem commRecord_counterexample :
    (sendSmsHandler true { ok := false, sid := "" }
        { toRecipient := some "+15551234567", message := some "hello",
          leadId := some 1, type := some "quote_notification" } 0).2.1.length
      = 0 ∧
    (sendEmailHandler (.ok (some "re_123"))
        { toRecipient := some "a@b.c", subject := some "Your quote",
          content := some "Hi", leadId := some 1,
          type := some "quote" }).2.length = 0 := by
  exact ⟨rfl, rfl⟩

/-- C8 (amended): an ingestion POST missing any required director field
produces no side effects — the leads table is untouched and the quote
generator is not invoked — but the response status is the handler's
generic 500, not a 4xx. -/
theorem ingestionValidation (db : List Lead) (s : LeadSubmission)
    (newId : Nat) (now : Int) (h : validSubmission s = false) :
    (webhookLeadIngestion db s newId now).1.status = 500 ∧
    (webhookLeadIngestion db s newId now).1.success = false ∧
    (webhookLeadIngestion db s newId now).2.1 = db ∧
    (webhookLeadIngestion db s newId now).2.2 = false := by
  unfold webhookLeadIngestion
  rw [if_pos (by simp [h])]
  exact ⟨rfl, rfl, rfl, rfl⟩

/-- Witness for `ingestionValidation` at a submission missing the email
field. -/
theorem ingestionValidation_witness :
    (webhookLeadIngestion []
        { director_first_name := some "A", director_last_name := some "B" }
        1 0).2.1 = [] ∧
    (webhookLeadIngestion []
        { director_first_name := some "A", director_last_name := some "B" }
        1 0).2.2 = false :=
  ⟨(ingestionValidation []
      { director_first_name := some "A", director_last_name := some "B" }
      1 0 rfl).2.2.1,
   (ingestionValidation []
      { director_first_name := some "A", director_last_name := some "B" }
      1 0 rfl).2.2.2⟩

/-- C8 counterexample: the rejection status for a missing
`director_email` is 500, which is not in the 4xx range. -/
theorem ingestionValidation_counterexample :
    (webhookLeadIngestion []
        { director_first_name := some "A", director_last_name := some "B" }
        1 0).1.status = 500 ∧
    ¬((webhookLeadIngestion []
        { director_first_name := some "A", director_last_name := some "B" }
        1 0).1.status < 500 ∧
      400 ≤ (webhookLeadIngestion []
        { director_first_name := some "A", director_last_name := some "B" }
        1 0).1.status) := by
  exact ⟨rfl, by decide⟩

/-- C9: customer resolution during conversion — a stored
`quickbooks_customer_id` suppresses creation (zero id writes); a
successful creation adopts the new id with exactly one write; a creation
failure whose message carries `'Duplicate Name'` falls back to the
lookup-by-name query and adopts the first found id with exactly one
write; and an empty lookup result is an error, never a silent id. -/
theorem conversionCustomerResolution (cid i msg c : String)
    (cr : QBCreateResp) (qr : QBQueryResp) (rest : List String)
    (hmsg : createQuickBooksCustomer cr = .error msg)
    (hdup : strContains msg "Duplicate Name" = true) :
    resolveCustomerId (some cid) cr qr = .ok (cid, 0) ∧
    (∀ cr2, createQuickBooksCustomer cr2 = .ok i →
      resolveCustomerId none cr2 qr = .ok (i, 1)) ∧
    resolveCustomerId none cr (.customers (c :: rest)) = .ok (c, 1) ∧
    (resolveCustomerId none cr (.customers [])).isOk = false := by
  refine ⟨rfl, ?_, ?_, ?_⟩
  · intro cr2 h2
    unfold resolveCustomerId
    rw [h2]
  · unfold resolveCustomerId
    rw [hmsg]
    simp [hdup, findExistingCustomer]
  · unfold resolveCustomerId
    rw [hmsg]
    simp [hdup, findExistingCustomer]
    rfl

/-- Witness for `conversionCustomerResolution`: a concrete duplicate-name
failure resolved through the lookup. -/
theorem conversionCustomerResolution_witness :
    resolveCustomerId none
      (.notOk "Bad Request" "Duplicate Name Exists Error")
      (.customers ["42"]) = .ok ("42", 1) :=
  (conversionCustomerResolution "stored" "ignored"
    ("Failed to create QuickBooks customer: Bad Request. Details: " ++
      "Duplicate Name Exists Error")
    "42" (.notOk "Bad Request" "Duplicate Name Exists Error")
    (.customers ["42"]) [] rfl (by decide)).2.2.1

/-- Every lead with the updated id carries `reply_detected = true` after
the reply handler's first update. -/
theorem mark_map_flag (leads : List Lead) (i : Nat) (c : String)
    (ts : Int) :
    ∀ l2 ∈ leads.map
        (fun l => if l.id == i then markReplyDetected c ts l else l),
      l2.id = i → l2.reply_detected = true := by
  intro l2 hmem hid
  rcases List.mem_map.mp hmem with ⟨x, hx, hEq⟩
  by_cases hxi : (x.id == i) = true
  · rw [if_pos hxi] at hEq
    rw [← hEq]
    rfl
  · rw [if_neg hxi] at hEq
    rw [← hEq] at hid
    exact absurd (by exact beq_iff_eq.mpr hid) hxi

/-- The post-classification status update touches only `status` and
`ai_suggested_message`. -/
theorem replyStatusUpdate_fields (r : IntentResult) (l : Lead) :
    (replyStatusUpdate r l).id = l.id ∧
    (replyStatusUpdate r l).reply_detected = l.reply_detected := by
  unfold replyStatusUpdate
  by_cases hp : r.purchaseIntent = true <;> simp [hp]

/-- The `reply_detected = true` invariant survives the
post-classification status update. -/
theorem status_map_flag (leads : List Lead) (i : Nat) (r : IntentResult)
    (hP : ∀ l2 ∈ leads, l2.id = i → l2.reply_detected = true) :
    ∀ l2 ∈ leads.map
        (fun l => if l.id == i then replyStatusUpdate r l else l),
      l2.id = i → l2.reply_detected = true := by
  intro l2 hmem hid
  rcases List.mem_map.mp hmem with ⟨x, hx, hEq⟩
  by_cases hxi : (x.id == i) = true
  · rw [if_pos hxi] at hEq
    rw [← hEq]
    rw [(replyStatusUpdate_fields r x).2]
    exact hP x hx (beq_iff_eq.mp hxi)
  · rw [if_neg hxi] at hEq
    rw [← hEq] at hid ⊢
    exact hP x hx hid

/-- C10: for an existing lead the reply handler applies the
`reply_detected` update and appends the inbound record before the
classifier runs, so in every outcome — including the error response
taken when classification cannot produce a result — the final state has
the inbound record logged, every row with the lead's id carries
`reply_detected = true`, and such a row is excluded from any later
Follow-up Scheduler selection. -/
theorem replyDetected_persists (db : DB) (req : ReplyRequest) (now : Int)
    (analysis : Option IntentResult) (lead : Lead)
    (h : findLeadByEmail db req.leadEmail = some lead) :
    inboundRecord lead.id req now ∈
      (replyDetectionHandler db req now analysis).2.comms ∧
    ∀ l2 ∈ (replyDetectionHandler db req now analysis).2.leads,
      l2.id = lead.id → l2.reply_detected = true ∧
        ∀ now2 leads2, l2 ∉ schedulerSelect now2 leads2 := by
  unfold replyDetectionHandler
  rw [h]
  cases analysis with
  | none =>
    constructor
    · exact List.mem_append_right _ (List.mem_singleton.mpr rfl)
    · intro l2 hmem hid
      have hflag := mark_map_flag db.leads lead.id req.replyContent
        (req.replyTimestamp.getD now) l2 hmem hid
      exact ⟨hflag, fun now2 leads2 =>
        not_selected_of_reply_detected now2 leads2 l2 hflag⟩
  | some r =>
    constructor
    · exact List.mem_append_right _ (List.mem_singleton.mpr rfl)
    · intro l2 hmem hid
      have hflag := status_map_flag _ lead.id r
        (mark_map_flag db.leads lead.id req.replyContent
          (req.replyTimestamp.getD now)) l2 hmem hid
      exact ⟨hflag, fun now2 leads2 =>
        not_selected_of_reply_detected now2 leads2 l2 hflag⟩

/-- Witness for `replyDetected_persists`: a concrete lead, a reply, and
a classifier that produced nothing (error outcome), after which the lead
is excluded from a scheduler pass over the final table. -/
theorem replyDetected_persists_witness :
    inboundRecord 1 { leadEmail := "a@b.c", replyContent := "hello" } 0 ∈
      (replyDetectionHandler
        { leads := [{ id := 1, director_email := "a@b.c",
                      director_first_name := "A",
                      director_last_name := "B",
                      status := "Quote Sent" }], comms := [] }
        { leadEmail := "a@b.c", replyContent := "hello" } 0 none).2.comms :=
  (replyDetected_persists
    { leads := [{ id := 1, director_email := "a@b.c",
                  director_first_name := "A", director_last_name := "B",
                  status := "Quote Sent" }], comms := [] }
    { leadEmail := "a@b.c", replyContent := "hello" } 0 none
    { id := 1, director_email := "a@b.c", director_first_name := "A",
      director_last_name := "B", status := "Quote Sent" } rfl).1

end Forte
